import Mathlib

/-!
Verification of the flutter_rust_bridge code generator (frb_codegen).

Shallow embedding of:
  * `src/frb_codegen/src/generator/rust/ty_struct.rs` — the per-struct
    generator methods (`wire2api_body`, `wire_struct_fields`, `impl_intodart`,
    `new_with_nullptr`, `imports`);
  * `src/frb_codegen/src/main.rs` — the generation pipeline (file writes,
    the external binder invocation under a scoped file swap, the sanity
    check, and the single-vs-split Dart output layout).

Helper code living in modules of the repository that are not part of the
two analyzed files (`ir.rs`, `utils.rs`, `others.rs`, `commands.rs`) is
modelled from the specification; each such definition carries a doc
comment starting with `Modelled from the spec:`.
-/

/-! ## IR data model (spec §3) -/

/-- Primitive IR type kinds. -/
inductive IrTypePrimitive where
  | u8 | i8 | u16 | i16 | u32 | i32 | u64 | i64 | f32 | f64 | bool | unit
deriving DecidableEq, Repr

/-- The closed polymorphic IR type (spec §3): Primitive, Delegate (transparent
alias), StructRef(name), EnumRef(name), Boxed, Optional, List, SyncReturn. -/
inductive IrType where
  | primitive (kind : IrTypePrimitive)
  | delegate (target : IrType)
  | structRef (name : String)
  | enumRef (name : String)
  | boxed (inner : IrType)
  | optional (inner : IrType)
  | list (element : IrType)
  | syncReturn (inner : IrType)
deriving DecidableEq, Repr

/-- A struct field: rust-style name and IR type, in declared order within
the enclosing struct's field list. -/
structure IrField where
  name : String
  ty : IrType
deriving DecidableEq, Repr

/-- A struct declaration: name, ordered fields, named-vs-positional
construction flag, optional source-module path. -/
structure IrStruct where
  name : String
  fields : List IrField
  is_fields_named : Bool
  path : Option (List String)
deriving DecidableEq, Repr

/-- A function declaration (spec §3): name, ordered parameters, return type. -/
structure IrFunc where
  name : String
  inputs : List (String × IrType)
  output : IrType
deriving DecidableEq, Repr

/-- The canonical unit of work: function declarations plus the struct pool
keyed by struct name. Read-only after the transform phase. -/
structure IrFile where
  funcs : List IrFunc
  struct_pool : List (String × IrStruct)
deriving DecidableEq, Repr

/-- The struct-reference type description handled by the struct generator
(`IrTypeStructRef` in the source): it carries the struct's name. -/
structure IrTypeStructRef where
  name : String
deriving DecidableEq, Repr

/-- Modelled from the spec: `ir.rs` is not among the analyzed files. Per
§4.3, each variant's wire representation carries an indirection modifier
chosen per variant: bare scalars and by-value aggregates have no modifier,
while Boxed (heap box), Optional (pointer-with-null-sentinel) and List
(pointer+length) indirections are raw pointers (`*mut `). Delegate is a
transparent alias and SyncReturn wraps the inner representation. -/
def IrType.rust_wire_modifier : IrType → String
  | .primitive _ => ""
  | .delegate t => t.rust_wire_modifier
  | .structRef _ => ""
  | .enumRef _ => ""
  | .boxed _ => "*mut "
  | .optional _ => "*mut "
  | .list _ => "*mut "
  | .syncReturn t => t.rust_wire_modifier

/-- Modelled from the spec: the ABI-level wire type name of each variant
(§4.3). Scalars keep their scalar name; struct/enum references use a
`wire_`-prefixed name derived from the declaration name; lists use a
dedicated `wire_list_` struct; Boxed/Optional/Delegate/SyncReturn defer to
the inner type's name. -/
def IrType.rust_wire_type : IrType → String
  | .primitive .u8 => "u8"
  | .primitive .i8 => "i8"
  | .primitive .u16 => "u16"
  | .primitive .i16 => "i16"
  | .primitive .u32 => "u32"
  | .primitive .i32 => "i32"
  | .primitive .u64 => "u64"
  | .primitive .i64 => "i64"
  | .primitive .f32 => "f32"
  | .primitive .f64 => "f64"
  | .primitive .bool => "bool"
  | .primitive .unit => "unit"
  | .delegate t => t.rust_wire_type
  | .structRef n => "wire_" ++ n
  | .enumRef n => "wire_" ++ n
  | .boxed t => t.rust_wire_type
  | .optional t => t.rust_wire_type
  | .list t => "wire_list_" ++ t.rust_wire_type
  | .syncReturn t => t.rust_wire_type

/-- Modelled from the spec: a wire representation is a pointer exactly when
its indirection modifier is the raw-pointer modifier (spec §4.3: null is
the sentinel "for indirections, zero/default otherwise"). -/
def IrType.rust_wire_is_pointer (ty : IrType) : Bool :=
  ty.rust_wire_modifier == "*mut "

/-- Modelled from the spec: `IrTypeStructRef::get` resolves the reference
in the read-only IR file's struct pool (spec §4.2: every named type
reference is resolved during the transform phase, so lookup succeeds on
canonical input; a default struct stands in for the unreachable miss). -/
def IrTypeStructRef.get (ty : IrTypeStructRef) (f : IrFile) : IrStruct :=
  (((f.struct_pool.find? (fun p => p.1 == ty.name)).map Prod.snd)).getD
    ⟨ty.name, [], true, none⟩

/-- Modelled from the spec: the native-language API type of a struct
reference is the struct's declared name. -/
def IrTypeStructRef.rust_api_type (ty : IrTypeStructRef) : String :=
  ty.name

/-- Modelled from the spec: `brackets_pair` — named-field construction uses
brace brackets, positional construction uses parentheses. -/
def IrStruct.brackets_pair (s : IrStruct) : String × String :=
  if s.is_fields_named then ("\x7b", "\x7d") else ("(", ")")

/-- Modelled from the spec: `IrField::name_rust_style` — for named-field
structs the accessor is the field name; for positional (tuple) structs
fields are stored as `field0`, `field1`, … and the accessor drops the
`field` prefix to yield the tuple index. -/
def IrField.name_rust_style (fld : IrField) (is_fields_named : Bool) : String :=
  if is_fields_named then fld.name
  else if fld.name.startsWith "field" then ⟨fld.name.data.drop 5⟩ else fld.name

/-! ## Struct generator methods (`ty_struct.rs`, in src/) -/

/-- The per-field entries of `wire2api_body`: the `.map(...)` closure of
`ty_struct.rs` lines 12–25; a field label (name + ": ") when the struct
uses named-field construction, then the conversion expression
` self.<name>.wire2api()`. -/
def wire2api_field_entries (ty : IrTypeStructRef) (f : IrFile) : List String :=
  let api_struct := ty.get f
  api_struct.fields.map (fun field =>
    (if api_struct.is_fields_named then field.name ++ ": " else "")
      ++ " self." ++ field.name ++ ".wire2api()")

/-- `wire2api_body` (`ty_struct.rs` lines 9–36): the native constructor
expression — api type, opening bracket, comma-joined field entries,
closing bracket. -/
def wire2api_body (ty : IrTypeStructRef) (f : IrFile) : Option String :=
  let api_struct := ty.get f
  let fields_str := String.intercalate "," (wire2api_field_entries ty f)
  let lr := api_struct.brackets_pair
  some (ty.rust_api_type ++ lr.1 ++ fields_str ++ lr.2)

/-- `wire_struct_fields` (`ty_struct.rs` lines 38–53): one declaration per
field, `name: modifier wiretype`, in declared order. -/
def wire_struct_fields (ty : IrTypeStructRef) (f : IrFile) : Option (List String) :=
  let s := ty.get f
  some (s.fields.map (fun field =>
    field.name ++ ": " ++ field.ty.rust_wire_modifier ++ field.ty.rust_wire_type))

/-- The per-field entries of `impl_intodart` (`ty_struct.rs` lines 58–68):
`self.<accessor>.into_dart()` for each field in declared order. -/
def impl_intodart_entries (ty : IrTypeStructRef) (f : IrFile) : List String :=
  let src := ty.get f
  src.fields.map (fun field =>
    "self." ++ field.name_rust_style src.is_fields_named ++ ".into_dart()")

/-- `impl_intodart` (`ty_struct.rs` lines 55–82): serializes the struct as
a flat `vec![…].into_dart()` of the per-field conversions. -/
def impl_intodart (ty : IrTypeStructRef) (f : IrFile) : String :=
  let body := String.intercalate ",\n" (impl_intodart_entries ty f)
  "impl support::IntoDart for " ++ ty.name ++ " \x7b\n"
    ++ "                fn into_dart(self) -> support::DartCObject \x7b\n"
    ++ "                    vec![\n"
    ++ "                        " ++ body ++ "\n"
    ++ "                    ].into_dart()\n"
    ++ "                \x7d\n"
    ++ "            \x7d\n"
    ++ "            impl support::IntoDartExceptPrimitive for " ++ ty.name ++ " \x7b\x7d\n"
    ++ "            "

/-- The extern-function collector threaded through the rust generator; the
struct generator's `new_with_nullptr` receives it but never uses it
(`_collector` in the source). -/
structure ExternFuncCollector where
  names : List String
deriving DecidableEq, Repr

/-- The per-field initializer entries of `new_with_nullptr` (`ty_struct.rs`
lines 87–103): `name: core::ptr::null_mut(),` for pointer wire
representations, `name: Default::default(),` otherwise. -/
def new_with_nullptr_entries (ty : IrTypeStructRef) (f : IrFile) : List String :=
  let src := ty.get f
  src.fields.map (fun field =>
    field.name ++ ": "
      ++ (if field.ty.rust_wire_is_pointer then "core::ptr::null_mut()"
          else "Default::default()")
      ++ ",")

/-- `new_with_nullptr` (`ty_struct.rs` lines 84–114): the zero/sentinel
constructor impl. The collector parameter is unused and passed through
unchanged, mirroring `_collector: &mut ExternFuncCollector`. -/
def new_with_nullptr (ty : IrTypeStructRef) (f : IrFile)
    (collector : ExternFuncCollector) : String × ExternFuncCollector :=
  let body := String.intercalate "\n" (new_with_nullptr_entries ty f)
  ("impl NewWithNullPtr for " ++ (IrType.structRef ty.name).rust_wire_type ++ " \x7b\n"
    ++ "                    fn new_with_null_ptr() -> Self \x7b\n"
    ++ "                        Self \x7b " ++ body ++ " \x7d\n"
    ++ "                    \x7d\n"
    ++ "                \x7d\n"
    ++ "            ", collector)

/-- `imports` (`ty_struct.rs` lines 116–126): a `use` line when the struct
has a source-module path, nothing otherwise. -/
def imports (ty : IrTypeStructRef) (f : IrFile) : Option String :=
  let api_struct := ty.get f
  match api_struct.path with
  | some p => some ("use " ++ String.intercalate "::" p ++ ";")
  | none => none

/-! ## Concrete example structs used by witnesses -/

/-- The `Point \x7b x: i64, y: i64 \x7d` struct of spec Scenario A. -/
def pointStruct : IrStruct :=
  ⟨"Point", [⟨"x", .primitive .i64⟩, ⟨"y", .primitive .i64⟩], true, none⟩

/-- An IR file containing only `Point`. -/
def pointFile : IrFile :=
  ⟨[⟨"f", [("p", .structRef "Point")], .primitive .unit⟩], [("Point", pointStruct)]⟩

/-- The struct reference to `Point`. -/
def pointRef : IrTypeStructRef := ⟨"Point"⟩

/-! ## Pipeline model (`main.rs`, in src/) -/

/-- Substring containment over the character list, used by the modelled
sanity check. -/
def containsSub (s pat : String) : Bool :=
  (List.range (s.data.length + 1)).any (fun i => pat.data.isPrefixOf (s.data.drop i))

/-- Modelled from the standard library path API used by `main.rs`
(`Path::parent`): the portion of the path before its final separator. -/
def parentDir (p : String) : String :=
  ⟨((p.data.reverse.dropWhile (fun c => c != '/')).drop 1).reverse⟩

/-- Modelled from the external `pathdiff` crate used by `main.rs`
(`diff_paths(target, base)`): the path of `target` relative to `base`;
when `target` sits under `base` this strips the base prefix. -/
def diffPaths (target base : String) : String :=
  if (base ++ "/").isPrefixOf target then ⟨target.data.drop (base.length + 1)⟩
  else target

/-- Modelled from the spec (§4.2): `ir.rs` is not among the analyzed
files. Collects the component types reachable from a root type through
type constructors and struct fields, with fuel bounding the descent. -/
def IrFile.expand_type (f : IrFile) : Nat → IrType → List IrType
  | 0, ty => [ty]
  | fuel + 1, ty =>
    ty :: (match ty with
      | .primitive _ => []
      | .delegate t => f.expand_type fuel t
      | .boxed t => f.expand_type fuel t
      | .optional t => f.expand_type fuel t
      | .list t => f.expand_type fuel t
      | .syncReturn t => f.expand_type fuel t
      | .enumRef _ => []
      | .structRef n =>
        match (f.struct_pool.find? (fun p => p.1 == n)).map Prod.snd with
        | some s => (s.fields.map (fun fld => f.expand_type fuel fld.ty)).flatten
        | none => [])

/-- Modelled from the spec (§4.2): the distinct-types set — the
structurally deduplicated collection of types reachable from the public
function surface, with flags gating inclusion of parameter and return
types. -/
def IrFile.distinct_types (f : IrFile) (include_inputs include_output : Bool) :
    List IrType :=
  let roots :=
    (if include_inputs then (f.funcs.map (fun fn => fn.inputs.map Prod.snd)).flatten else [])
    ++ (if include_output then f.funcs.map IrFunc.output else [])
  ((roots.map (f.expand_type (f.struct_pool.length + 1))).flatten).dedup

/-- `c_struct_names` (`main.rs` lines 73–83): the wire-type names of the
StructRef entries of the distinct-types set, every other variant filtered
out. -/
def c_struct_names (f : IrFile) : List String :=
  (f.distinct_types true true).filterMap (fun ty =>
    match ty with
    | .structRef _ => some ty.rust_wire_type
    | _ => none)

/-- The rust generator's result handed to the pipeline: generated code and
the tracked exported entry-point names. -/
structure GeneratedRustCode where
  code : String
  extern_func_names : List String
deriving DecidableEq, Repr

/-- A Dart code fragment: import section, part directives, body. -/
structure DartBasicCode where
  import_ : String
  part : String
  body : String
deriving DecidableEq, Repr

/-- Modelled from the spec (§4.5): Dart code streams are concatenated
per-section so the assembler can merge or split them (`others.rs` is not
among the analyzed files). -/
def dartAdd (a b : DartBasicCode) : DartBasicCode :=
  ⟨a.import_ ++ "\n" ++ b.import_, a.part ++ "\n" ++ b.part, a.body ++ "\n" ++ b.body⟩

/-- Modelled from the spec: a DartBasicCode renders as imports, then part
directives, then body. -/
def DartBasicCode.to_text (c : DartBasicCode) : String :=
  c.import_ ++ "\n" ++ c.part ++ "\n" ++ c.body

/-- The Dart generator's result: file prelude, declaration stream,
implementation stream. -/
structure GeneratedDart where
  file_prelude : DartBasicCode
  decl_code : DartBasicCode
  impl_code : DartBasicCode
deriving DecidableEq, Repr

/-- The configuration slice of `main.rs` that the modelled pipeline
reads. -/
structure Config where
  rust_output_path : String
  c_output_path : String
  dart_output_path : String
  dart_decl_output_path : Option String
  dart_wire_class_name : String
  skip_add_mod_to_lib : Bool
deriving DecidableEq, Repr

/-- Outcome of the external binder invocation: the produced C header text
and raw transport-declaration text, or a non-zero exit. -/
inductive BinderOutcome where
  | success (header : String) (dartWireRaw : String)
  | failure
deriving DecidableEq, Repr

/-- Observable pipeline effects, in execution order. -/
inductive Event where
  | createDirAll (path : String)
  | writeFile (path : String) (content : String)
  | formatRust (path : String)
  | formatDart (path : String)
  | addModToLib
  | invokeBinder (structNames : List String)
deriving DecidableEq, Repr

/-- Fatal pipeline errors (spec §7). -/
inductive PipelineError where
  | toolInvocation
  | sanityCheck
deriving DecidableEq, Repr

/-- Modelled from the spec (§4.6 step 1): the dummy wire code appended so
the binder sees the extra exported symbols; its exact text lives in a
module not among the analyzed files, only its presence matters here. -/
def DUMMY_WIRE_CODE_FOR_BINDGEN : String :=
  "\n// ---- dummy wire code for the external binder ----\n"

/-- Modelled from the spec (§4.7): names of symbols the binder cannot see,
emitted as hand-written dummy declarations. -/
def EXTRA_EXTERN_FUNC_NAMES : List String := ["store_dart_post_cobject"]

/-- Modelled from the spec (§4.7): dummy C declarations for the tracked
exported names (`generator/c` is not among the analyzed files). -/
def generate_dummy (names : List String) : String :=
  String.intercalate "\n" (names.map (fun n => "void " ++ n ++ "(void);"))

/-- Left-to-right replacement of a pattern in a character list, with fuel
bounding the scan. -/
def replaceCharsFuel (pat repl : List Char) : Nat → List Char → List Char
  | 0, l => l
  | fuel + 1, l =>
    match l with
    | [] => []
    | c :: rest =>
      if pat ≠ [] ∧ pat.isPrefixOf (c :: rest) then
        repl ++ replaceCharsFuel pat repl fuel ((c :: rest).drop pat.length)
      else c :: replaceCharsFuel pat repl fuel rest

/-- Modelled from the spec (§4.6 step 4): renames the binder-specific
boilerplate class (`NativeLibrary`) to the configured wire class name
(`others.rs` is not among the analyzed files). -/
def modify_dart_wire_content (raw wireClassName : String) : String :=
  ⟨replaceCharsFuel ("NativeLibrary" : String).data wireClassName.data
    raw.data.length raw.data⟩

/-- Modelled from the spec (§4.6 step 4): wraps the post-processed binder
output as a Dart fragment whose body is the transport-declaration text. -/
def extract_dart_wire_content (raw : String) : DartBasicCode :=
  ⟨"", "", raw⟩

/-- Modelled from the spec (§4.7): the sanity check verifies that the
expected name it is given occurs in the post-processed transport-
declaration body; absence is a fatal SanityCheckError (`utils.rs` is not
among the analyzed files). The caller in `main.rs` line 127 passes the
Dart wire class name as the expected name. -/
def sanity_check (body expected : String) : Bool :=
  containsSub body expected

/-- Modelled from the spec (§4.6): scoped swap of the generated native
source file — write the variant with the appended dummy content, run the
inner action, and restore the original content unconditionally, on
success or failure of the inner action (`utils.rs` is not among the
analyzed files). -/
def with_changed_file (path original appended : String)
    (inner : List Event × Option PipelineError) :
    List Event × Option PipelineError :=
  (Event.writeFile path (original ++ appended)
     :: inner.1 ++ [Event.writeFile path original],
   inner.2)

/-- The pipeline of `main.rs` from the rust-generation write (line 54)
onward, as an event trace plus the fatal error that aborted it, if any.
Steps appear in the source's execution order: rust write and format,
optional lib-module registration, binder invocation under the scoped file
swap, C header write, Dart post-processing and sanity check, Dart file
writes (split or merged), Dart formatting. -/
def runPipeline (cfg : Config) (irFile : IrFile) (genRust : GeneratedRustCode)
    (genDart : GeneratedDart) (binder : BinderOutcome) :
    List Event × Option PipelineError :=
  let pre : List Event :=
    [.createDirAll (parentDir cfg.rust_output_path),
     .writeFile cfg.rust_output_path genRust.code,
     .formatRust cfg.rust_output_path]
    ++ (if cfg.skip_add_mod_to_lib then [] else [.addModToLib])
  let names := c_struct_names irFile
  let binderStep : List Event × Option PipelineError :=
    ([.invokeBinder names],
     match binder with
     | .failure => some .toolInvocation
     | .success _ _ => none)
  let swapped :=
    with_changed_file cfg.rust_output_path genRust.code
      DUMMY_WIRE_CODE_FOR_BINDGEN binderStep
  match binder with
  | .failure => (pre ++ swapped.1, some .toolInvocation)
  | .success header dartWireRaw =>
    let effective := genRust.extern_func_names ++ EXTRA_EXTERN_FUNC_NAMES
    let cEvents : List Event :=
      [.createDirAll (parentDir cfg.c_output_path),
       .writeFile cfg.c_output_path (header ++ "\n" ++ generate_dummy effective)]
    let dartDirEvents : List Event := [.createDirAll (parentDir cfg.dart_output_path)]
    let wire :=
      extract_dart_wire_content
        (modify_dart_wire_content dartWireRaw cfg.dart_wire_class_name)
    if sanity_check wire.body cfg.dart_wire_class_name then
      let impl_all := dartAdd genDart.impl_code wire
      let dartWrites : List Event :=
        match cfg.dart_decl_output_path with
        | some declPath =>
          let implImportDecl : DartBasicCode :=
            ⟨"import \"" ++ diffPaths declPath (parentDir cfg.dart_output_path) ++ "\";",
             "", ""⟩
          [.writeFile declPath
             (dartAdd genDart.file_prelude genDart.decl_code).to_text,
           .writeFile cfg.dart_output_path
             (dartAdd (dartAdd genDart.file_prelude implImportDecl) impl_all).to_text]
        | none =>
          [.writeFile cfg.dart_output_path
             (dartAdd (dartAdd genDart.file_prelude genDart.decl_code) impl_all).to_text]
      let fmtEvents : List Event :=
        [.formatDart cfg.dart_output_path]
        ++ (match cfg.dart_decl_output_path with
            | some declPath => [.formatDart declPath]
            | none => [])
      (pre ++ swapped.1 ++ cEvents ++ dartDirEvents ++ dartWrites ++ fmtEvents, none)
    else
      (pre ++ swapped.1 ++ cEvents ++ dartDirEvents, some .sanityCheck)

/-- The contents written to a given path by a trace, in order. -/
def writesTo (tr : List Event) (path : String) : List String :=
  tr.filterMap (fun e =>
    match e with
    | .writeFile p c => if p = path then some c else none
    | _ => none)

/-! ## Helper lemmas: extracting field names from generated entries -/

/-- The characters of a generated `name: …` entry before its first colon. -/
def takeUntilColon (s : String) : String :=
  ⟨s.data.takeWhile (fun c => c != ':')⟩

/-- The field accessor of a generated `self.<accessor>.…()` entry: the
characters after the five characters of `self.` and before the next dot. -/
def intodartAccessor (s : String) : String :=
  ⟨(s.data.drop 5).takeWhile (fun c => c != '.')⟩

/-- The declared field names of a struct, in declared order. -/
def declaredFieldNames (s : IrStruct) : List String :=
  s.fields.map IrField.name

theorem takeWhile_append_stop (p : Char → Bool) (l1 : List Char) (x : Char)
    (l2 : List Char) (h1 : ∀ c ∈ l1, p c = true) (h2 : p x = false) :
    (l1 ++ x :: l2).takeWhile p = l1 := by
  induction l1 with
  | nil => simp [List.takeWhile_cons, h2]
  | cons a l ih =>
    have ha : p a = true := h1 a (List.mem_cons_self a l)
    have ih2 := ih (fun c hc => h1 c (List.mem_cons_of_mem a hc))
    simp [List.takeWhile_cons, ha, ih2]

theorem takeUntilColon_data (nm : String) (tail : List Char)
    (h : ∀ c ∈ nm.data, c ≠ ':') (s : String)
    (hs : s.data = nm.data ++ ':' :: tail) :
    takeUntilColon s = nm := by
  unfold takeUntilColon
  rw [hs, takeWhile_append_stop _ _ _ _ (fun c hc => by simpa using h c hc) (by decide)]

theorem intodartAccessor_data (nm : String) (tail : List Char)
    (h : ∀ c ∈ nm.data, c ≠ '.') (s : String)
    (hs : s.data = 's' :: 'e' :: 'l' :: 'f' :: '.' :: (nm.data ++ '.' :: tail)) :
    intodartAccessor s = nm := by
  unfold intodartAccessor
  rw [hs]
  simp only [List.drop_succ_cons, List.drop_zero]
  rw [takeWhile_append_stop _ _ _ _ (fun c hc => by simpa using h c hc) (by decide)]

/-! ## Claim theorems -/

/-- C1: for every declared struct (here: every struct reference resolved in
the IR file), the three generated fragments iterate fields in declared
order — `wire_struct_fields`, the `wire2api_body` constructor entries, and
the `impl_intodart` serialization each emit exactly one entry per field,
and the sequence of field names read back from each output equals the
struct's declared field-name sequence. Stated for named-field structs
whose field names contain no colon or dot (the generated punctuation). -/
theorem c1_struct_field_order (ty : IrTypeStructRef) (f : IrFile)
    (hnamed : (ty.get f).is_fields_named = true)
    (hcolon : ∀ fld ∈ (ty.get f).fields, ∀ c ∈ fld.name.data, c ≠ ':')
    (hdot : ∀ fld ∈ (ty.get f).fields, ∀ c ∈ fld.name.data, c ≠ '.') :
    (wire_struct_fields ty f).map List.length = some (ty.get f).fields.length
    ∧ (wire2api_field_entries ty f).length = (ty.get f).fields.length
    ∧ (impl_intodart_entries ty f).length = (ty.get f).fields.length
    ∧ (wire_struct_fields ty f).map (List.map takeUntilColon)
        = some (declaredFieldNames (ty.get f))
    ∧ (wire2api_field_entries ty f).map takeUntilColon
        = declaredFieldNames (ty.get f)
    ∧ (impl_intodart_entries ty f).map intodartAccessor
        = declaredFieldNames (ty.get f) := by
  refine ⟨?_, ?_, ?_, ?_, ?_, ?_⟩
  · simp [wire_struct_fields]
  · simp [wire2api_field_entries]
  · simp [impl_intodart_entries]
  · simp only [wire_struct_fields, Option.map_some', Option.some.injEq,
      List.map_map, declaredFieldNames]
    refine List.map_congr_left (fun fld hf => ?_)
    refine takeUntilColon_data fld.name
      (' ' :: (fld.ty.rust_wire_modifier.data ++ fld.ty.rust_wire_type.data))
      (hcolon fld hf) _ ?_
    simp only [Function.comp_apply, String.data_append, List.append_assoc]
    rfl
  · simp only [wire2api_field_entries, hnamed, if_true, List.map_map,
      declaredFieldNames]
    refine List.map_congr_left (fun fld hf => ?_)
    refine takeUntilColon_data fld.name
      (' ' :: ((" self." : String).data ++ (fld.name.data ++ (".wire2api()" : String).data)))
      (hcolon fld hf) _ ?_
    simp only [Function.comp_apply, String.data_append, List.append_assoc]
    rfl
  · simp only [impl_intodart_entries, List.map_map, declaredFieldNames]
    refine List.map_congr_left (fun fld hf => ?_)
    have hacc : fld.name_rust_style (ty.get f).is_fields_named = fld.name := by
      simp [IrField.name_rust_style, hnamed]
    refine intodartAccessor_data fld.name ("into_dart()" : String).data
      (hdot fld hf) _ ?_
    simp only [Function.comp_apply, hacc, String.data_append, List.append_assoc]
    rfl

/-- Witness for C1: the `Point` struct of spec Scenario A — all three
fragments read back the field-name sequence `x, y`. -/
theorem c1_struct_field_order_witness :
    (wire_struct_fields pointRef pointFile).map (List.map takeUntilColon)
      = some ["x", "y"]
    ∧ (wire2api_field_entries pointRef pointFile).map takeUntilColon = ["x", "y"]
    ∧ (impl_intodart_entries pointRef pointFile).map intodartAccessor = ["x", "y"] := by
  have h := c1_struct_field_order pointRef pointFile (by decide) (by decide) (by decide)
  refine ⟨?_, ?_, ?_⟩
  · rw [h.2.2.2.1]; decide
  · rw [h.2.2.2.2.1]; decide
  · rw [h.2.2.2.2.2]; decide

/-- A positional (tuple) struct example used by witnesses. -/
def pairStruct : IrStruct :=
  ⟨"Pair", [⟨"field0", .primitive .i64⟩, ⟨"field1", .primitive .i64⟩], false, none⟩

/-- An IR file containing only `Pair`. -/
def pairFile : IrFile := ⟨[], [("Pair", pairStruct)]⟩

/-- The struct reference to `Pair`. -/
def pairRef : IrTypeStructRef := ⟨"Pair"⟩

/-- A zero-field struct example used by witnesses. -/
def emptyStruct : IrStruct := ⟨"Empty", [], true, none⟩

/-- An IR file containing only `Empty`. -/
def emptyFile : IrFile := ⟨[], [("Empty", emptyStruct)]⟩

/-- The struct reference to `Empty`. -/
def emptyRef : IrTypeStructRef := ⟨"Empty"⟩

/-- C4: every registry generator method is a pure, deterministic function
of the type description and the read-only IR file: repeated invocations
agree byte-for-byte, and `new_with_nullptr`'s output does not depend on
(and does not mutate) the extern-function collector it receives. -/
theorem c4_generator_determinism (ty : IrTypeStructRef) (f : IrFile)
    (c c' : ExternFuncCollector) :
    wire2api_body ty f = wire2api_body ty f
    ∧ wire_struct_fields ty f = wire_struct_fields ty f
    ∧ impl_intodart ty f = impl_intodart ty f
    ∧ imports ty f = imports ty f
    ∧ (new_with_nullptr ty f c).1 = (new_with_nullptr ty f c').1
    ∧ (new_with_nullptr ty f c).2 = c :=
  ⟨rfl, rfl, rfl, rfl, rfl, rfl⟩

set_option maxRecDepth 8192 in
/-- C5: `new_with_nullptr` initializes every field whose wire
representation is a pointer to `core::ptr::null_mut()` and every other
field to `Default::default()` (the type's zero/default value); for the
`Point \x7b x: i64, y: i64 \x7d` struct of Scenario A both fields are
non-pointer primitives and both initializers are the i64 default, 0. -/
theorem c5_new_with_nullptr_defaults (ty : IrTypeStructRef) (f : IrFile) :
    new_with_nullptr_entries ty f
      = (ty.get f).fields.map (fun fld =>
          fld.name ++ ": "
            ++ (if fld.ty.rust_wire_is_pointer then "core::ptr::null_mut()"
                else "Default::default()") ++ ",")
    ∧ new_with_nullptr_entries pointRef pointFile
        = ["x: Default::default(),", "y: Default::default(),"]
    ∧ (IrType.primitive .i64).rust_wire_is_pointer = false
    ∧ (new_with_nullptr pointRef pointFile ⟨[]⟩).1
      = "impl NewWithNullPtr for wire_Point \x7b\n"
        ++ "                    fn new_with_null_ptr() -> Self \x7b\n"
        ++ "                        Self \x7b x: Default::default(),\ny: Default::default(), \x7d\n"
        ++ "                    \x7d\n"
        ++ "                \x7d\n"
        ++ "            " := by
  refine ⟨rfl, by decide, by decide, by decide⟩

/-- C6: the wire-to-native conversion entries carry a `name: ` label
before each conversion expression exactly when the struct uses
named-field construction; positional construction emits no label (no
colon appears anywhere in an entry whose field names are colon-free);
declared field order is preserved in either case. -/
theorem c6_wire2api_label_policy (ty : IrTypeStructRef) (f : IrFile)
    (hcolon : ∀ fld ∈ (ty.get f).fields, ∀ c ∈ fld.name.data, c ≠ ':') :
    ((ty.get f).is_fields_named = true →
      wire2api_field_entries ty f
        = (ty.get f).fields.map (fun fld =>
            (fld.name ++ ": ") ++ (" self." ++ fld.name ++ ".wire2api()"))
      ∧ (wire2api_field_entries ty f).map takeUntilColon
          = declaredFieldNames (ty.get f))
    ∧ ((ty.get f).is_fields_named = false →
      wire2api_field_entries ty f
        = (ty.get f).fields.map (fun fld => " self." ++ fld.name ++ ".wire2api()")
      ∧ ∀ e ∈ wire2api_field_entries ty f, ∀ c ∈ e.data, c ≠ ':')
    ∧ (wire2api_field_entries ty f).length = (ty.get f).fields.length := by
  refine ⟨?_, ?_, by simp [wire2api_field_entries]⟩
  · intro hnamed
    constructor
    · simp only [wire2api_field_entries, hnamed, if_true]
      refine List.map_congr_left (fun fld hf => ?_)
      apply String.ext
      simp only [String.data_append, List.append_assoc]
    · simp only [wire2api_field_entries, hnamed, if_true, List.map_map,
        declaredFieldNames]
      refine List.map_congr_left (fun fld hf => ?_)
      refine takeUntilColon_data fld.name
        (' ' :: ((" self." : String).data ++ (fld.name.data ++ (".wire2api()" : String).data)))
        (hcolon fld hf) _ ?_
      simp only [Function.comp_apply, String.data_append, List.append_assoc]
      rfl
  · intro hpos
    have hmap : wire2api_field_entries ty f
        = (ty.get f).fields.map (fun fld => " self." ++ fld.name ++ ".wire2api()") := by
      simp only [wire2api_field_entries, hpos, if_false]
      refine List.map_congr_left (fun fld hf => ?_)
      apply String.ext
      simp only [String.data_append, List.append_assoc]
      rfl
    refine ⟨hmap, ?_⟩
    intro e he c hc
    rw [hmap] at he
    obtain ⟨fld, hf, rfl⟩ := List.mem_map.mp he
    simp only [String.data_append, List.append_assoc, List.mem_append] at hc
    rcases hc with hc | hc | hc
    · exact (by decide : ∀ x ∈ (" self." : String).data, x ≠ ':') c hc
    · exact hcolon fld hf c hc
    · exact (by decide : ∀ x ∈ (".wire2api()" : String).data, x ≠ ':') c hc

/-- Witness for C6: the named `Point` struct gets labels `x: `, `y: `; the
positional `Pair` struct gets unlabeled entries. -/
theorem c6_wire2api_label_policy_witness :
    wire2api_field_entries pointRef pointFile
      = ["x:  self.x.wire2api()", "y:  self.y.wire2api()"]
    ∧ wire2api_field_entries pairRef pairFile
      = [" self.field0.wire2api()", " self.field1.wire2api()"] := by
  have h1 := c6_wire2api_label_policy pointRef pointFile (by decide)
  have h2 := c6_wire2api_label_policy pairRef pairFile (by decide)
  refine ⟨?_, ?_⟩
  · rw [(h1.1 (by decide)).1]; decide
  · rw [(h2.2.1 (by decide)).1]; decide

/-- C9: `impl_intodart` serializes a struct as a flat `vec![…]` whose
elements are exactly the per-field conversions in declared order — one
element per declared field, and the envelope text is precisely the
template around the comma-joined entries, with no per-struct tag and no
field-name metadata elements. -/
theorem c9_intodart_envelope (ty : IrTypeStructRef) (f : IrFile) :
    (impl_intodart_entries ty f).length = (ty.get f).fields.length
    ∧ impl_intodart_entries ty f
        = (ty.get f).fields.map (fun fld =>
            "self." ++ fld.name_rust_style (ty.get f).is_fields_named ++ ".into_dart()")
    ∧ impl_intodart ty f
        = "impl support::IntoDart for " ++ ty.name ++ " \x7b\n"
          ++ "                fn into_dart(self) -> support::DartCObject \x7b\n"
          ++ "                    vec![\n"
          ++ "                        "
          ++ String.intercalate ",\n" (impl_intodart_entries ty f) ++ "\n"
          ++ "                    ].into_dart()\n"
          ++ "                \x7d\n"
          ++ "            \x7d\n"
          ++ "            impl support::IntoDartExceptPrimitive for " ++ ty.name ++ " \x7b\x7d\n"
          ++ "            " := by
  exact ⟨by simp [impl_intodart_entries], rfl, rfl⟩

/-- C10: for a zero-field struct every generator method is total and
returns well-formed output — `wire_struct_fields` is `some []`,
`wire2api_body` is `some` of the bare constructor, the serialization is
the empty `vec![]`, and the zero constructor has an empty initializer
list. -/
theorem c10_empty_struct (ty : IrTypeStructRef) (f : IrFile)
    (c : ExternFuncCollector) (h : (ty.get f).fields = []) :
    wire_struct_fields ty f = some []
    ∧ wire2api_body ty f
        = some (ty.rust_api_type ++ (ty.get f).brackets_pair.1
            ++ (ty.get f).brackets_pair.2)
    ∧ impl_intodart_entries ty f = []
    ∧ impl_intodart ty f
        = "impl support::IntoDart for " ++ ty.name ++ " \x7b\n"
          ++ "                fn into_dart(self) -> support::DartCObject \x7b\n"
          ++ "                    vec![\n"
          ++ "                        " ++ "\n"
          ++ "                    ].into_dart()\n"
          ++ "                \x7d\n"
          ++ "            \x7d\n"
          ++ "            impl support::IntoDartExceptPrimitive for " ++ ty.name ++ " \x7b\x7d\n"
          ++ "            "
    ∧ new_with_nullptr_entries ty f = []
    ∧ (new_with_nullptr ty f c).1
      = "impl NewWithNullPtr for " ++ (IrType.structRef ty.name).rust_wire_type ++ " \x7b\n"
        ++ "                    fn new_with_null_ptr() -> Self \x7b\n"
        ++ "                        Self \x7b " ++ "" ++ " \x7d\n"
        ++ "                    \x7d\n"
        ++ "                \x7d\n"
        ++ "            " := by
  have he2 : wire2api_field_entries ty f = [] := by simp [wire2api_field_entries, h]
  have he3 : impl_intodart_entries ty f = [] := by simp [impl_intodart_entries, h]
  have he5 : new_with_nullptr_entries ty f = [] := by simp [new_with_nullptr_entries, h]
  have hi1 : String.intercalate "," ([] : List String) = "" := rfl
  have hi2 : String.intercalate ",\n" ([] : List String) = "" := rfl
  have hi3 : String.intercalate "\n" ([] : List String) = "" := rfl
  have hempty : ("" : String).data = [] := rfl
  refine ⟨by simp [wire_struct_fields, h], ?_, he3, ?_, he5, ?_⟩
  · simp only [wire2api_body, he2, hi1]
    congr 1
    apply String.ext
    simp only [String.data_append, hempty, List.append_nil]
  · simp only [impl_intodart, he3, hi2]
    apply String.ext
    simp only [String.data_append, hempty, List.append_nil]
  · simp only [new_with_nullptr, he5, hi3]

/-- Witness for C10 at the concrete zero-field struct `Empty`. -/
theorem c10_empty_struct_witness :
    wire_struct_fields emptyRef emptyFile = some []
    ∧ wire2api_body emptyRef emptyFile = some "Empty\x7b\x7d"
    ∧ impl_intodart_entries emptyRef emptyFile = []
    ∧ new_with_nullptr_entries emptyRef emptyFile = [] := by
  have h := c10_empty_struct emptyRef emptyFile ⟨[]⟩ (by decide)
  refine ⟨h.1, ?_, h.2.2.1, h.2.2.2.2.1⟩
  rw [h.2.1]; decide

/-- Injectivity of the `wire_`-prefixed naming of struct wire types. -/
theorem wire_name_inj (n n' : String)
    (h : ("wire_" ++ n : String) = "wire_" ++ n') : n = n' := by
  have hd := congrArg String.data h
  rw [String.data_append, String.data_append] at hd
  exact String.ext (List.append_cancel_left hd)

/-- Shape of the entries the `c_struct_names` filter keeps. -/
theorem c_struct_names_shape (a : IrType) (b : String)
    (hb : b ∈ (fun ty =>
        match ty with
        | IrType.structRef _ => some ty.rust_wire_type
        | _ => none) a) :
    ∃ n, a = IrType.structRef n ∧ b = "wire_" ++ n := by
  cases a <;> simp_all [IrType.rust_wire_type, Option.mem_def]

/-- C7: the struct wire-type name list handed to the external binder is
exactly the wire-type names of the StructRef entries of the canonical
distinct-types set (every other variant excluded), and — the distinct set
holding each structural shape once — the list has no duplicate names. -/
theorem c7_c_struct_names_distinct (f : IrFile) :
    c_struct_names f
      = (f.distinct_types true true).filterMap (fun ty =>
          match ty with
          | IrType.structRef _ => some ty.rust_wire_type
          | _ => none)
    ∧ (f.distinct_types true true).Nodup
    ∧ (c_struct_names f).Nodup := by
  refine ⟨rfl, List.nodup_dedup _, ?_⟩
  have hinj : ∀ (a a' : IrType) (b : String),
      b ∈ (fun ty =>
        match ty with
        | IrType.structRef _ => some ty.rust_wire_type
        | _ => none) a →
      b ∈ (fun ty =>
        match ty with
        | IrType.structRef _ => some ty.rust_wire_type
        | _ => none) a' → a = a' := by
    intro a a' b hb hb'
    obtain ⟨n, rfl, rfl⟩ := c_struct_names_shape a b hb
    obtain ⟨n', rfl, h⟩ := c_struct_names_shape a' _ hb'
    rw [wire_name_inj n n' h]
  exact List.Nodup.filterMap hinj (List.nodup_dedup _)

/-- The ordered sequence of (path, content) file writes of a trace. -/
def writeEvents (tr : List Event) : List (String × String) :=
  tr.filterMap (fun e =>
    match e with
    | .writeFile p c => some (p, c)
    | _ => none)

/-- Concrete pipeline inputs used by witnesses and counterexamples. -/
def cexIr : IrFile := ⟨[], []⟩

/-- A tracked-exported-names record whose only name is `wire_f`. -/
def cexGen : GeneratedRustCode := ⟨"generated code", ["wire_f"]⟩

/-- Trivial Dart generator output. -/
def cexDart : GeneratedDart := ⟨⟨"", "", ""⟩, ⟨"", "", ""⟩, ⟨"", "", ""⟩⟩

/-- C3 (amended): if the external binder exits non-zero, the run aborts
with a fatal ToolInvocationError and no further output file is written —
the write sequence consists only of the native source file (written
before the binder step, swapped, and restored to its exact pre-run
generated content) — and the scoped swap restores the original content as
its last write on success and failure of the inner step alike. -/
theorem c3_binder_failure_abort (cfg : Config) (irFile : IrFile)
    (genRust : GeneratedRustCode) (genDart : GeneratedDart) :
    (runPipeline cfg irFile genRust genDart .failure).2
      = some PipelineError.toolInvocation
    ∧ writeEvents (runPipeline cfg irFile genRust genDart .failure).1
        = [(cfg.rust_output_path, genRust.code),
           (cfg.rust_output_path, genRust.code ++ DUMMY_WIRE_CODE_FOR_BINDGEN),
           (cfg.rust_output_path, genRust.code)]
    ∧ (∀ inner : List Event × Option PipelineError,
        (with_changed_file cfg.rust_output_path genRust.code
            DUMMY_WIRE_CODE_FOR_BINDGEN inner).1.getLast?
          = some (.writeFile cfg.rust_output_path genRust.code)
        ∧ (with_changed_file cfg.rust_output_path genRust.code
            DUMMY_WIRE_CODE_FOR_BINDGEN inner).2 = inner.2) := by
  refine ⟨?_, ?_, ?_⟩
  · cases hsk : cfg.skip_add_mod_to_lib <;>
      simp [runPipeline, with_changed_file, hsk]
  · cases hsk : cfg.skip_add_mod_to_lib <;>
      simp [runPipeline, with_changed_file, writeEvents, hsk]
  · intro inner
    refine ⟨?_, rfl⟩
    show (Event.writeFile cfg.rust_output_path
        (genRust.code ++ DUMMY_WIRE_CODE_FOR_BINDGEN)
        :: (inner.1 ++ [Event.writeFile cfg.rust_output_path genRust.code])).getLast?
      = some (Event.writeFile cfg.rust_output_path genRust.code)
    rw [← List.cons_append, List.getLast?_concat]

/-- Counterexample for C3 as stated: a concrete run in which the binder
fails and the run aborts, yet the native output file — one of the run's
output files — has already been written (three times) before the abort,
refuting "aborts before any output file is written". -/
theorem c3_counterexample :
    (runPipeline ⟨"out/gen.rs", "out/gen.h", "lib/gen.dart", none, "Wire", true⟩
        cexIr cexGen cexDart .failure).2 = some PipelineError.toolInvocation
    ∧ writeEvents (runPipeline
          ⟨"out/gen.rs", "out/gen.h", "lib/gen.dart", none, "Wire", true⟩
          cexIr cexGen cexDart .failure).1
        = [("out/gen.rs", "generated code"),
           ("out/gen.rs", "generated code" ++ DUMMY_WIRE_CODE_FOR_BINDGEN),
           ("out/gen.rs", "generated code")] := by
  exact ⟨rfl, by decide⟩

/-- C2 (amended): if the expected name is absent from the post-processed
transport-declaration body, the run aborts with a fatal SanityCheckError
before any managed-language (Dart) file is written — but the native file
and the C header have already been written by that point. -/
theorem c2_sanity_check_aborts (cfg : Config) (irFile : IrFile)
    (genRust : GeneratedRustCode) (genDart : GeneratedDart) (header raw : String)
    (hfail : sanity_check (extract_dart_wire_content
        (modify_dart_wire_content raw cfg.dart_wire_class_name)).body
        cfg.dart_wire_class_name = false) :
    (runPipeline cfg irFile genRust genDart (.success header raw)).2
      = some PipelineError.sanityCheck
    ∧ writeEvents (runPipeline cfg irFile genRust genDart (.success header raw)).1
        = [(cfg.rust_output_path, genRust.code),
           (cfg.rust_output_path, genRust.code ++ DUMMY_WIRE_CODE_FOR_BINDGEN),
           (cfg.rust_output_path, genRust.code),
           (cfg.c_output_path,
            header ++ "\n"
              ++ generate_dummy (genRust.extern_func_names ++ EXTRA_EXTERN_FUNC_NAMES))] := by
  constructor
  · cases hsk : cfg.skip_add_mod_to_lib <;>
      simp [runPipeline, with_changed_file, hfail, hsk]
  · cases hsk : cfg.skip_add_mod_to_lib <;>
      simp [runPipeline, with_changed_file, writeEvents, hfail, hsk]

/-- Witness for C2's amended theorem: a concrete run whose post-processed
body lacks the expected wire-class name aborts with SanityCheckError
after exactly the native and C-header writes. -/
theorem c2_sanity_check_aborts_witness :
    (runPipeline ⟨"out2/gen.rs", "out2/gen.h", "lib2/gen.dart", none, "Wire", true⟩
        cexIr cexGen cexDart (.success "HDR" "no declarations generated")).2
      = some PipelineError.sanityCheck
    ∧ writeEvents (runPipeline
          ⟨"out2/gen.rs", "out2/gen.h", "lib2/gen.dart", none, "Wire", true⟩
          cexIr cexGen cexDart (.success "HDR" "no declarations generated")).1
        = [("out2/gen.rs", cexGen.code),
           ("out2/gen.rs", cexGen.code ++ DUMMY_WIRE_CODE_FOR_BINDGEN),
           ("out2/gen.rs", cexGen.code),
           ("out2/gen.h",
            "HDR" ++ "\n"
              ++ generate_dummy (cexGen.extern_func_names ++ EXTRA_EXTERN_FUNC_NAMES))] :=
  c2_sanity_check_aborts
    ⟨"out2/gen.rs", "out2/gen.h", "lib2/gen.dart", none, "Wire", true⟩
    cexIr cexGen cexDart "HDR" "no declarations generated" (by decide)

/-- Counterexample for C2 as stated: a concrete run in which one of the
native generator's tracked exported names (`wire_f`) is absent from the
post-processed transport-declaration body, yet no SanityCheckError is
raised (the run completes with no error): the check compares only the
Dart wire class name its caller passes, and it runs after the native and
C-header files are written. -/
theorem c2_counterexample :
    "wire_f" ∈ cexGen.extern_func_names
    ∧ containsSub (extract_dart_wire_content
        (modify_dart_wire_content "class NativeLibrary extends Base" "Wire")).body
        "wire_f" = false
    ∧ (runPipeline ⟨"out2/gen.rs", "out2/gen.h", "lib2/gen.dart", none, "Wire", true⟩
          cexIr cexGen cexDart (.success "HDR" "class NativeLibrary extends Base")).2
        = none := by
  refine ⟨by decide, by decide, by decide⟩

/-- C8: with a separate Dart declaration output path configured, the
pipeline writes exactly two managed-language files — the declaration file
(prelude plus declaration stream) and the implementation file, whose own
head section carries an import of the relative path from the directory
of the implementation file to the declaration file — and with no
declaration path it writes exactly one merged file (prelude, declarations,
implementation); the full write sequence is pinned in either case. -/
theorem c8_dart_output_layout (cfg : Config) (irFile : IrFile)
    (genRust : GeneratedRustCode) (genDart : GeneratedDart) (header raw : String)
    (hok : sanity_check (extract_dart_wire_content
        (modify_dart_wire_content raw cfg.dart_wire_class_name)).body
        cfg.dart_wire_class_name = true) :
    (∀ declPath, cfg.dart_decl_output_path = some declPath →
      writeEvents (runPipeline cfg irFile genRust genDart (.success header raw)).1
        = [(cfg.rust_output_path, genRust.code),
           (cfg.rust_output_path, genRust.code ++ DUMMY_WIRE_CODE_FOR_BINDGEN),
           (cfg.rust_output_path, genRust.code),
           (cfg.c_output_path,
            header ++ "\n"
              ++ generate_dummy (genRust.extern_func_names ++ EXTRA_EXTERN_FUNC_NAMES)),
           (declPath, (dartAdd genDart.file_prelude genDart.decl_code).to_text),
           (cfg.dart_output_path,
            (dartAdd (dartAdd genDart.file_prelude
                ⟨"import \"" ++ diffPaths declPath (parentDir cfg.dart_output_path) ++ "\";",
                 "", ""⟩)
              (dartAdd genDart.impl_code
                (extract_dart_wire_content
                  (modify_dart_wire_content raw cfg.dart_wire_class_name)))).to_text)])
    ∧ (cfg.dart_decl_output_path = none →
      writeEvents (runPipeline cfg irFile genRust genDart (.success header raw)).1
        = [(cfg.rust_output_path, genRust.code),
           (cfg.rust_output_path, genRust.code ++ DUMMY_WIRE_CODE_FOR_BINDGEN),
           (cfg.rust_output_path, genRust.code),
           (cfg.c_output_path,
            header ++ "\n"
              ++ generate_dummy (genRust.extern_func_names ++ EXTRA_EXTERN_FUNC_NAMES)),
           (cfg.dart_output_path,
            (dartAdd (dartAdd genDart.file_prelude genDart.decl_code)
              (dartAdd genDart.impl_code
                (extract_dart_wire_content
                  (modify_dart_wire_content raw cfg.dart_wire_class_name)))).to_text)]) := by
  constructor
  · intro declPath hdecl
    cases hsk : cfg.skip_add_mod_to_lib <;>
      simp [runPipeline, with_changed_file, writeEvents, hok, hdecl, hsk]
  · intro hnone
    cases hsk : cfg.skip_add_mod_to_lib <;>
      simp [runPipeline, with_changed_file, writeEvents, hok, hnone, hsk]

/-- Witness for C8 at a concrete split configuration: two Dart files are
written, and the implementation file's import references the relative
path of the declaration file. -/
theorem c8_dart_output_layout_witness :
    writeEvents (runPipeline
        ⟨"out8/gen.rs", "out8/gen.h", "lib8/api.dart", some "lib8/def.dart", "Wire", true⟩
        cexIr cexGen cexDart (.success "H" "class NativeLibrary x")).1
      = [("out8/gen.rs", cexGen.code),
         ("out8/gen.rs", cexGen.code ++ DUMMY_WIRE_CODE_FOR_BINDGEN),
         ("out8/gen.rs", cexGen.code),
         ("out8/gen.h",
          "H" ++ "\n"
            ++ generate_dummy (cexGen.extern_func_names ++ EXTRA_EXTERN_FUNC_NAMES)),
         ("lib8/def.dart", (dartAdd cexDart.file_prelude cexDart.decl_code).to_text),
         ("lib8/api.dart",
          (dartAdd (dartAdd cexDart.file_prelude
              ⟨"import \"" ++ diffPaths "lib8/def.dart" (parentDir "lib8/api.dart") ++ "\";",
               "", ""⟩)
            (dartAdd cexDart.impl_code
              (extract_dart_wire_content
                (modify_dart_wire_content "class NativeLibrary x" "Wire")))).to_text)] :=
  (c8_dart_output_layout
    ⟨"out8/gen.rs", "out8/gen.h", "lib8/api.dart", some "lib8/def.dart", "Wire", true⟩
    cexIr cexGen cexDart "H" "class NativeLibrary x" (by decide)).1
    "lib8/def.dart" rfl
